import Mathlib

/-!
Shallow embedding of `voidsdatastore.py` (class `DatastoreClient` and its
helpers).  HTTP traffic is modelled by passing the scripted responses of the
server explicitly: the initial response of a `get_key`/`update_key` call is a
value of `HResp`, and the responses seen by the polling loop form a list of
`PollEvent`s.  Wall-clock time (`time.monotonic`, `time.sleep`, timeouts) is
modelled over `ℚ`: each HTTP request consumes `elapse` time units and each
`time.sleep interval` advances the clock by `interval`.
-/

/-- JSON values, the result of a successful `resp.json()`. -/
inductive Json where
  | null : Json
  | bool (b : Bool) : Json
  | num (n : Int) : Json
  | str (s : String) : Json
  | arr (elems : List Json) : Json
  | obj (fields : List (String × Json)) : Json

/-- A Python value returned to the caller: either a decoded JSON document
(`resp.json()`) or the raw response text (`resp.text`). -/
inductive PyVal where
  | json (j : Json) : PyVal
  | text (s : String) : PyVal

/-- An HTTP response as the client observes it.  `json = some j` models a
`resp.json()` call succeeding with `j`; `json = none` models `resp.json()`
raising `ValueError`.  `retryAfter` models the `Retry-After` response header;
the source code never reads any response header, so no definition below
consults this field. -/
structure HResp where
  status : Nat
  json : Option Json
  text : String
  retryAfter : Option String

/-- One scripted event of the polling loop: the status request takes `elapse`
time units and yields `resp`. -/
structure PollEvent where
  elapse : ℚ
  resp : HResp

/-- Termination of `_poll_status`:  `resolved` models a normal return,
`timedOut` models `PollTimeoutError` (carrying the request id and the
configured `timeout` argument, as the exception message does), `failed` models
`DatastoreError` raised by `_raise_for_status` (carrying the status code and
the best-effort message), and `serverSilent` is the model artifact of running
out of scripted responses. -/
inductive PollOutcome where
  | resolved (v : PyVal) : PollOutcome
  | timedOut (requestId : Json) (timeout : ℚ) : PollOutcome
  | failed (status : Nat) (msg : Option PyVal) : PollOutcome
  | serverSilent : PollOutcome

/-- Observable trace of one `_poll_status` run: the outcome, the list of
status requests issued (time of issue, per-request timeout passed to
`session.get`), and the list of `time.sleep` durations. -/
structure PollResult where
  outcome : PollOutcome
  requests : List (ℚ × ℚ)
  waits : List ℚ

/-- `DatastoreClient` state after `__init__`. -/
structure Client where
  api_key : String
  base_url : String
  request_timeout : ℚ

/-- `resp.json()` preferred, falling back to `resp.text` — the `try/except
ValueError` pattern used for every value-returning response. -/
def respValue (resp : HResp) : PyVal :=
  match resp.json with
  | some j => PyVal.json j
  | none => PyVal.text resp.text

/-- The best-effort message computed inside `_raise_for_status`:
`resp.json()` if it parses, else `resp.text or None`. -/
def errMsg (resp : HResp) : Option PyVal :=
  match resp.json with
  | some j => some (PyVal.json j)
  | none => if resp.text = "" then none else some (PyVal.text resp.text)

/-- `_raise_for_status`: returns the `DatastoreError` payload (status code and
best-effort message) when `resp.status_code >= 400`, else `none` (no raise). -/
def raise_for_status (resp : HResp) : Option (Nat × Option PyVal) :=
  if 400 ≤ resp.status then some (resp.status, errMsg resp) else none

/-- The body of the `while True` loop of `_poll_status`, unrolled over the
scripted events.  `rt` is `self.request_timeout`, `deadline` the precomputed
deadline, `interval` the poll interval, `rid`/`tmo` the request id and timeout
reported by `PollTimeoutError`, `now` the current `time.monotonic()`.
Mirrors the source order: budget check, request, `status == 200` returns the
body, `status == 202` sleeps `interval` and continues, `status >= 400` raises
via `_raise_for_status`, and the fallback sleeps `interval` and continues. -/
def pollStatusGo (rt deadline interval : ℚ) (rid : Json) (tmo : ℚ) :
    ℚ → List PollEvent → PollResult
  | now, events =>
    if deadline - now ≤ 0 then
      { outcome := PollOutcome.timedOut rid tmo, requests := [], waits := [] }
    else
      match events with
      | [] => { outcome := PollOutcome.serverSilent, requests := [], waits := [] }
      | e :: rest =>
        let reqT := min rt (max ((1 : ℚ)/10) (deadline - now))
        let now1 := now + e.elapse
        if e.resp.status = 200 then
          { outcome := PollOutcome.resolved (respValue e.resp),
            requests := [(now, reqT)], waits := [] }
        else if e.resp.status = 202 then
          let r := pollStatusGo rt deadline interval rid tmo (now1 + interval) rest
          { outcome := r.outcome, requests := (now, reqT) :: r.requests,
            waits := interval :: r.waits }
        else if 400 ≤ e.resp.status then
          { outcome := PollOutcome.failed e.resp.status (errMsg e.resp),
            requests := [(now, reqT)], waits := [] }
        else
          let r := pollStatusGo rt deadline interval rid tmo (now1 + interval) rest
          { outcome := r.outcome, requests := (now, reqT) :: r.requests,
            waits := interval :: r.waits }

/-- `_poll_status(request_id, interval, timeout)` entered at `startTime`:
the deadline is computed exactly once as `startTime + timeout` and never
recomputed. -/
def poll_status (c : Client) (rid : Json) (interval timeout startTime : ℚ)
    (events : List PollEvent) : PollResult :=
  pollStatusGo c.request_timeout (startTime + timeout) interval rid timeout
    startTime events

/-- Python truthiness of a JSON value (`None`, `False`, `0`, `""`, `[]`, `{}`
are falsy). -/
def jsonTruthy : Json → Bool
  | Json.null => false
  | Json.bool b => b
  | Json.num n => decide (n ≠ 0)
  | Json.str s => decide (s ≠ "")
  | Json.arr l => !l.isEmpty
  | Json.obj l => !l.isEmpty

/-- Truthiness of `dict.get`'s result (`None` for a missing key is falsy). -/
def optTruthy : Option Json → Bool
  | none => false
  | some j => jsonTruthy j

/-- Python `a or b` over `dict.get` results: `a` when truthy, else `b`. -/
def pyOrJ (a b : Option Json) : Option Json :=
  if optTruthy a then a else b

/-- `dict.get(k)` on a JSON object's field list. -/
def objGet (fields : List (String × Json)) (k : String) : Option Json :=
  (fields.find? (fun p => p.1 = k)).map Prod.snd

/-- `data.get("requestId") or data.get("request_id") or
data.get("requestId".lower())` — the three-lookup chain of `get_key`. -/
def ridChainGet (fields : List (String × Json)) : Option Json :=
  pyOrJ (objGet fields "requestId")
    (pyOrJ (objGet fields "request_id") (objGet fields "requestid"))

/-- `data.get("requestId") or data.get("request_id")` — the two-lookup chain
of `update_key`. -/
def ridChainUpdate (fields : List (String × Json)) : Option Json :=
  pyOrJ (objGet fields "requestId") (objGet fields "request_id")

/-- Outcome of a `get_key`/`update_key` call.  `ret` is a normal return,
`retNone` is Python falling off the end of the function (returning `None`),
`dsErr`/`dsErrMsg` are `DatastoreError` (with status code, resp. with only a
message), `timeoutErr` is `PollTimeoutError`, `pyError` is an uncaught plain
Python exception (not a `DatastoreError`), and `modelIncomplete` marks the
scripted responses running out mid-poll. -/
inductive CallResult where
  | ret (v : PyVal) : CallResult
  | retNone : CallResult
  | dsErr (status : Nat) (msg : Option PyVal) : CallResult
  | dsErrMsg (msg : String) : CallResult
  | timeoutErr (requestId : Json) (timeout : ℚ) : CallResult
  | pyError (msg : String) : CallResult
  | modelIncomplete : CallResult

/-- Whether the raised exception is (a subclass of) `DatastoreError`.
`PollTimeoutError` extends `DatastoreError` in the source. -/
def isDatastoreError : CallResult → Bool
  | CallResult.dsErr _ _ => true
  | CallResult.dsErrMsg _ => true
  | CallResult.timeoutErr _ _ => true
  | _ => false

/-- Whether the call returned normally (rather than raising). -/
def isReturn : CallResult → Bool
  | CallResult.ret _ => true
  | CallResult.retNone => true
  | _ => false

def pollOutcomeToResult : PollOutcome → CallResult
  | PollOutcome.resolved v => CallResult.ret v
  | PollOutcome.timedOut r t => CallResult.timeoutErr r t
  | PollOutcome.failed s m => CallResult.dsErr s m
  | PollOutcome.serverSilent => CallResult.modelIncomplete

/-- The 202 branch shared by `get_key` and `update_key`: decode the JSON body
(`ValueError` becomes a `DatastoreError`), run the `or`-chain `chain` of
`dict.get` lookups (an `AttributeError` escapes if the decoded body is not a
dict), raise `DatastoreError` if the chained result is falsy, else enter
`_poll_status` with the extracted request id. -/
def acceptedBranch (c : Client) (chain : List (String × Json) → Option Json)
    (resp : HResp) (poll_interval poll_timeout startTime : ℚ)
    (events : List PollEvent) : CallResult × List (ℚ × ℚ) × List ℚ :=
  match resp.json with
  | none =>
    (CallResult.dsErrMsg "202 response did not contain JSON with a requestId.",
      [], [])
  | some (Json.obj fields) =>
    match chain fields with
    | some j =>
      if jsonTruthy j then
        let r := poll_status c j poll_interval poll_timeout startTime events
        (pollOutcomeToResult r.outcome, r.requests, r.waits)
      else (CallResult.dsErrMsg "202 response missing requestId field.", [], [])
    | none => (CallResult.dsErrMsg "202 response missing requestId field.", [], [])
  | some _ => (CallResult.pyError "AttributeError: object has no attribute get", [], [])

/-- `get_key(game_id, key, poll_interval, poll_timeout)` given the server's
initial response and the scripted polling responses.  Returns the call result
together with the status-request and sleep traces of the polling phase
(empty when no polling happened).  Mirrors the source: `200` returns the body
directly, `202` extracts the request id and polls, then `_raise_for_status`,
then an implicit `return None`. -/
def get_key (c : Client) (initial : HResp)
    (poll_interval poll_timeout startTime : ℚ) (events : List PollEvent) :
    CallResult × List (ℚ × ℚ) × List ℚ :=
  if initial.status = 200 then (CallResult.ret (respValue initial), [], [])
  else if initial.status = 202 then
    acceptedBranch c ridChainGet initial poll_interval poll_timeout startTime events
  else
    match raise_for_status initial with
    | some (s, m) => (CallResult.dsErr s m, [], [])
    | none => (CallResult.retNone, [], [])

/-- The HTTP body `update_key` sends: `session.post(json=...)` with a JSON
document, `session.post(data=...)` with a plain-text body, or a request with
no body at all (`data=None`, no `json` argument). -/
inductive ReqBody where
  | jsonBody (j : Json) : ReqBody
  | textBody (s : String) : ReqBody
  | emptyBody : ReqBody

/-- `str(value)` for the primitive values `update_key` accepts. -/
def pyStr : Json → String
  | Json.null => "None"
  | Json.bool b => if b then "True" else "False"
  | Json.num n => toString n
  | Json.str s => s
  | Json.arr _ => ""
  | Json.obj _ => ""

/-- The payload selection of `update_key`: `json_payload = value` for a
dict/list, `json_payload = None` for `None`, else `payload = str(value)`;
then `post(json=json_payload)` when `json_payload is not None`, else
`post(data=payload)`.  (`data=None` sends a request with an empty body.) -/
def updateRequestBody (value : Json) : ReqBody :=
  let jsonPayload : Option Json :=
    match value with
    | Json.obj _ => some value
    | Json.arr _ => some value
    | Json.null => none
    | _ => none
  let payload : Option String :=
    match value with
    | Json.obj _ => none
    | Json.arr _ => none
    | Json.null => none
    | v => some (pyStr v)
  match jsonPayload with
  | some j => ReqBody.jsonBody j
  | none =>
    match payload with
    | some s => ReqBody.textBody s
    | none => ReqBody.emptyBody

/-- `update_key(game_id, key, value, poll_interval, poll_timeout)`: the first
component is the request body sent, the rest as in `get_key` (the status
handling of the source is identical up to the two-lookup request-id chain). -/
def update_key (c : Client) (value : Json) (initial : HResp)
    (poll_interval poll_timeout startTime : ℚ) (events : List PollEvent) :
    ReqBody × CallResult × List (ℚ × ℚ) × List ℚ :=
  let tail :=
    if initial.status = 200 then (CallResult.ret (respValue initial), [], [])
    else if initial.status = 202 then
      acceptedBranch c ridChainUpdate initial poll_interval poll_timeout startTime events
    else
      match raise_for_status initial with
      | some (s, m) => (CallResult.dsErr s m, [], [])
      | none => (CallResult.retNone, [], [])
  (updateRequestBody value, tail)

/-- Python truthiness of an optional string (`None` and `""` are falsy). -/
def strTruthy : Option String → Bool
  | none => false
  | some s => decide (s ≠ "")

/-- Python `a or b` over optional strings. -/
def pyOrStr (a b : Option String) : Option String :=
  if strTruthy a then a else b

/-- The environment variables consulted by `__init__`. -/
structure Env where
  voidsDatastoreApiKey : Option String
  apiKey : Option String

def DEFAULT_BASE_URL : String := "https://voidsdatastore.net/api/v1/"

/-- `api_key or os.getenv("VOIDS_DATASTORE_API_KEY") or os.getenv("API_KEY")`. -/
def resolveApiKey (apiKeyArg : Option String) (env : Env) : Option String :=
  pyOrStr apiKeyArg (pyOrStr env.voidsDatastoreApiKey env.apiKey)

/-- `base_url or DEFAULT_BASE_URL`, then append `"/"` unless already present. -/
def normalizeBase (baseUrlArg : Option String) : String :=
  let s := match pyOrStr baseUrlArg (some DEFAULT_BASE_URL) with
    | some t => t
    | none => DEFAULT_BASE_URL
  if s.endsWith "/" then s else s ++ "/"

/-- Result of `DatastoreClient.__init__`: a constructed client, or
`AuthenticationError` raised before the session (and hence any HTTP request)
exists. -/
inductive InitResult where
  | ok (c : Client) : InitResult
  | authError : InitResult

/-- `DatastoreClient(api_key, base_url, request_timeout)`:  resolve the key,
raise `AuthenticationError` if the resolved key is falsy, else normalize the
base URL and build the session state. -/
def initClient (apiKeyArg : Option String) (env : Env)
    (baseUrlArg : Option String) (request_timeout : ℚ) : InitResult :=
  match resolveApiKey apiKeyArg env with
  | none => InitResult.authError
  | some s =>
    if s = "" then InitResult.authError
    else InitResult.ok
      { api_key := s, base_url := normalizeBase baseUrlArg,
        request_timeout := request_timeout }

/-- Python `str.rstrip("/")` on a character list. -/
def pyRstrip (l : List Char) : List Char :=
  ((l.reverse.dropWhile (fun c => c = '/'))).reverse

/-- Python `str.lstrip("/")` on a character list. -/
def pyLstrip (l : List Char) : List Char :=
  l.dropWhile (fun c => c = '/')

/-- `_build_url`: `f"{self.base_url.rstrip('/')}/{path.lstrip('/')}"`. -/
def build_url (c : Client) (path : String) : String :=
  String.mk (pyRstrip c.base_url.toList ++ '/' :: pyLstrip path.toList)

/-- Replace the Retry-After header of a scripted response, leaving status,
body and timing untouched.  Used to state that the client's behaviour does
not depend on this header. -/
def setRetryAfter (v : Option String) (e : PollEvent) : PollEvent :=
  { elapse := e.elapse,
    resp := { status := e.resp.status, json := e.resp.json,
              text := e.resp.text, retryAfter := v } }

/-- Example client used in concrete runs. -/
def cfgEx : Client :=
  { api_key := "k", base_url := DEFAULT_BASE_URL, request_timeout := 10 }

/-- Example request id. -/
def ridEx : Json := Json.str "abc"

/-- The body reporting pending status. -/
def pendingBody : Json := Json.obj [("status", Json.str "pending")]

/-- A 200 status response whose body reports pending status. -/
def ev200pending : PollEvent :=
  { elapse := 0, resp := { status := 200, json := some pendingBody, text := "", retryAfter := none } }

/-- A 202 status response with a pending body. -/
def ev202 : PollEvent :=
  { elapse := 0, resp := { status := 202, json := some pendingBody, text := "", retryAfter := none } }

/-- A 202 pending response that carries a Retry-After header of 7. -/
def ev202ra : PollEvent :=
  { elapse := 0, resp := { status := 202, json := some pendingBody, text := "", retryAfter := some "7" } }

/-- A 204 status response during polling. -/
def ev204 : PollEvent :=
  { elapse := 0, resp := { status := 204, json := none, text := "", retryAfter := none } }

/-- A terminal result body. -/
def doneBody : Json := Json.obj [("Balance", Json.num 42)]

/-- A 200 status response carrying the terminal body. -/
def ev200done : PollEvent :=
  { elapse := 0, resp := { status := 200, json := some doneBody, text := "", retryAfter := none } }

/-- An initial response with status 204 and no body. -/
def resp204 : HResp := { status := 204, json := none, text := "", retryAfter := none }

/-- An initial response with status 404. -/
def resp404 : HResp := { status := 404, json := none, text := "not found", retryAfter := none }

/-- A 202 initial response whose JSON body is an array, not an object. -/
def resp202arr : HResp :=
  { status := 202, json := some (Json.arr [Json.num 1]), text := "", retryAfter := none }

/-- A 202 initial response using the request_id spelling only. -/
def resp202rid2 : HResp :=
  { status := 202, json := some (Json.obj [("request_id", Json.str "abc")]), text := "", retryAfter := none }

/-- Unfolding lemma: an exhausted budget raises `PollTimeoutError` before any
request is issued. -/
theorem pollStatusGo_timeout (rt d i : ℚ) (rid : Json) (tmo now : ℚ)
    (events : List PollEvent) (h : d - now ≤ 0) :
    pollStatusGo rt d i rid tmo now events
      = { outcome := PollOutcome.timedOut rid tmo, requests := [], waits := [] } := by
  unfold pollStatusGo
  simp [h]

/-- Unfolding lemma: a 200 status response resolves immediately with its body. -/
theorem pollStatusGo_200 (rt d i : ℚ) (rid : Json) (tmo now : ℚ)
    (e : PollEvent) (rest : List PollEvent) (h : 0 < d - now)
    (h200 : e.resp.status = 200) :
    pollStatusGo rt d i rid tmo now (e :: rest)
      = { outcome := PollOutcome.resolved (respValue e.resp),
          requests := [(now, min rt (max ((1 : ℚ)/10) (d - now)))], waits := [] } := by
  unfold pollStatusGo
  simp [h200, not_le.mpr h]

/-- Unfolding lemma: a 202 status response sleeps `interval` and continues. -/
theorem pollStatusGo_202 (rt d i : ℚ) (rid : Json) (tmo now : ℚ)
    (e : PollEvent) (rest : List PollEvent) (h : 0 < d - now)
    (h202 : e.resp.status = 202) :
    pollStatusGo rt d i rid tmo now (e :: rest)
      = { outcome := (pollStatusGo rt d i rid tmo (now + e.elapse + i) rest).outcome,
          requests := (now, min rt (max ((1 : ℚ)/10) (d - now)))
            :: (pollStatusGo rt d i rid tmo (now + e.elapse + i) rest).requests,
          waits := i :: (pollStatusGo rt d i rid tmo (now + e.elapse + i) rest).waits } := by
  conv_lhs => unfold pollStatusGo
  simp [h202, not_le.mpr h]

/-- Unfolding lemma: a status of 400 or above raises `DatastoreError`. -/
theorem pollStatusGo_400 (rt d i : ℚ) (rid : Json) (tmo now : ℚ)
    (e : PollEvent) (rest : List PollEvent) (h : 0 < d - now)
    (h400 : 400 ≤ e.resp.status) :
    pollStatusGo rt d i rid tmo now (e :: rest)
      = { outcome := PollOutcome.failed e.resp.status (errMsg e.resp),
          requests := [(now, min rt (max ((1 : ℚ)/10) (d - now)))], waits := [] } := by
  unfold pollStatusGo
  have h200 : e.resp.status ≠ 200 := by omega
  have h202 : e.resp.status ≠ 202 := by omega
  simp [h200, h202, h400, not_le.mpr h]

/-- Unfolding lemma: any other status (the fallback branch, covering 1xx,
201, 203-399 other than the cases above) sleeps `interval` and continues. -/
theorem pollStatusGo_other (rt d i : ℚ) (rid : Json) (tmo now : ℚ)
    (e : PollEvent) (rest : List PollEvent) (h : 0 < d - now)
    (h200 : e.resp.status ≠ 200) (h202 : e.resp.status ≠ 202)
    (h400 : ¬ 400 ≤ e.resp.status) :
    pollStatusGo rt d i rid tmo now (e :: rest)
      = { outcome := (pollStatusGo rt d i rid tmo (now + e.elapse + i) rest).outcome,
          requests := (now, min rt (max ((1 : ℚ)/10) (d - now)))
            :: (pollStatusGo rt d i rid tmo (now + e.elapse + i) rest).requests,
          waits := i :: (pollStatusGo rt d i rid tmo (now + e.elapse + i) rest).waits } := by
  conv_lhs => unfold pollStatusGo
  simp [h200, h202, h400, not_le.mpr h]

/-- Unfolding lemma: with budget left but no scripted response, the model
stops with `serverSilent`. -/
theorem pollStatusGo_nil (rt d i : ℚ) (rid : Json) (tmo now : ℚ) (h : 0 < d - now) :
    pollStatusGo rt d i rid tmo now []
      = { outcome := PollOutcome.serverSilent, requests := [], waits := [] } := by
  unfold pollStatusGo
  simp [not_le.mpr h]

/-- Every status request of a polling run is issued at a time strictly before
the deadline, and its per-request timeout is `min(self.request_timeout,
max(0.1, remaining))` computed from its own remaining budget. -/
theorem pollStatusGo_requests_spec (rt d i : ℚ) (rid : Json) (tmo : ℚ) :
    ∀ (events : List PollEvent) (now : ℚ),
      ∀ p ∈ (pollStatusGo rt d i rid tmo now events).requests,
        p.1 < d ∧ p.2 = min rt (max ((1 : ℚ)/10) (d - p.1)) := by
  intro events
  induction events with
  | nil =>
    intro now p hp
    by_cases hd : d - now ≤ 0
    · rw [pollStatusGo_timeout rt d i rid tmo now [] hd] at hp
      simp at hp
    · rw [pollStatusGo_nil rt d i rid tmo now (not_le.mp hd)] at hp
      simp at hp
  | cons e rest ih =>
    intro now p hp
    by_cases hd : d - now ≤ 0
    · rw [pollStatusGo_timeout rt d i rid tmo now (e :: rest) hd] at hp
      simp at hp
    · have hlt : 0 < d - now := not_le.mp hd
      by_cases h200 : e.resp.status = 200
      · rw [pollStatusGo_200 rt d i rid tmo now e rest hlt h200] at hp
        simp at hp
        subst hp
        exact ⟨by linarith, by simp [one_div]⟩
      · by_cases h202 : e.resp.status = 202
        · rw [pollStatusGo_202 rt d i rid tmo now e rest hlt h202] at hp
          simp at hp
          rcases hp with hp | hp
          · subst hp
            exact ⟨by linarith, by simp [one_div]⟩
          · exact ih (now + e.elapse + i) p hp
        · by_cases h400 : 400 ≤ e.resp.status
          · rw [pollStatusGo_400 rt d i rid tmo now e rest hlt h400] at hp
            simp at hp
            subst hp
            exact ⟨by linarith, by simp [one_div]⟩
          · rw [pollStatusGo_other rt d i rid tmo now e rest hlt h200 h202 h400] at hp
            simp at hp
            rcases hp with hp | hp
            · subst hp
              exact ⟨by linarith, by simp [one_div]⟩
            · exact ih (now + e.elapse + i) p hp

/-- A `PollTimeoutError` outcome always carries the request id and the
configured timeout that `_poll_status` was called with. -/
theorem pollStatusGo_timedOut_inv (rt d i : ℚ) (rid : Json) (tmo : ℚ) :
    ∀ (events : List PollEvent) (now : ℚ) (r : Json) (t : ℚ),
      (pollStatusGo rt d i rid tmo now events).outcome = PollOutcome.timedOut r t →
      r = rid ∧ t = tmo := by
  intro events
  induction events with
  | nil =>
    intro now r t h
    by_cases hd : d - now ≤ 0
    · rw [pollStatusGo_timeout rt d i rid tmo now [] hd] at h
      injection h with h1 h2
      exact ⟨h1.symm, h2.symm⟩
    · rw [pollStatusGo_nil rt d i rid tmo now (not_le.mp hd)] at h
      exact absurd h (by simp)
  | cons e rest ih =>
    intro now r t h
    by_cases hd : d - now ≤ 0
    · rw [pollStatusGo_timeout rt d i rid tmo now (e :: rest) hd] at h
      injection h with h1 h2
      exact ⟨h1.symm, h2.symm⟩
    · have hlt : 0 < d - now := not_le.mp hd
      by_cases h200 : e.resp.status = 200
      · rw [pollStatusGo_200 rt d i rid tmo now e rest hlt h200] at h
        exact absurd h (by simp)
      · by_cases h202 : e.resp.status = 202
        · rw [pollStatusGo_202 rt d i rid tmo now e rest hlt h202] at h
          exact ih (now + e.elapse + i) r t h
        · by_cases h400 : 400 ≤ e.resp.status
          · rw [pollStatusGo_400 rt d i rid tmo now e rest hlt h400] at h
            exact absurd h (by simp)
          · rw [pollStatusGo_other rt d i rid tmo now e rest hlt h200 h202 h400] at h
            exact ih (now + e.elapse + i) r t h

/-- Every wait of a polling run equals the configured interval: the interval
is never changed and no response header influences it. -/
theorem pollStatusGo_waits_spec (rt d i : ℚ) (rid : Json) (tmo : ℚ) :
    ∀ (events : List PollEvent) (now : ℚ),
      ∀ w ∈ (pollStatusGo rt d i rid tmo now events).waits, w = i := by
  intro events
  induction events with
  | nil =>
    intro now w hw
    by_cases hd : d - now ≤ 0
    · rw [pollStatusGo_timeout rt d i rid tmo now [] hd] at hw
      simp at hw
    · rw [pollStatusGo_nil rt d i rid tmo now (not_le.mp hd)] at hw
      simp at hw
  | cons e rest ih =>
    intro now w hw
    by_cases hd : d - now ≤ 0
    · rw [pollStatusGo_timeout rt d i rid tmo now (e :: rest) hd] at hw
      simp at hw
    · have hlt : 0 < d - now := not_le.mp hd
      by_cases h200 : e.resp.status = 200
      · rw [pollStatusGo_200 rt d i rid tmo now e rest hlt h200] at hw
        simp at hw
      · by_cases h202 : e.resp.status = 202
        · rw [pollStatusGo_202 rt d i rid tmo now e rest hlt h202] at hw
          rcases List.mem_cons.mp hw with hw | hw
          · exact hw
          · exact ih (now + e.elapse + i) w hw
        · by_cases h400 : 400 ≤ e.resp.status
          · rw [pollStatusGo_400 rt d i rid tmo now e rest hlt h400] at hw
            simp at hw
          · rw [pollStatusGo_other rt d i rid tmo now e rest hlt h200 h202 h400] at hw
            rcases List.mem_cons.mp hw with hw | hw
            · exact hw
            · exact ih (now + e.elapse + i) w hw

/-- C1 counterexample: the polling loop classifies responses by HTTP status
code, not by body.  A status response with code 200 whose body is exactly the
pending report `status = "pending"` terminates the loop after one single
status request, with that body returned as the result — the claim says such a
body keeps the loop polling. -/
theorem C1_counterexample :
    ev200pending.resp.json = some pendingBody ∧
    (poll_status cfgEx ridEx 3 60 0 [ev200pending]).outcome
      = PollOutcome.resolved (PyVal.json pendingBody) ∧
    (poll_status cfgEx ridEx 3 60 0 [ev200pending]).requests.length = 1 := by
  have h := pollStatusGo_200 cfgEx.request_timeout (0 + 60) 3 ridEx 60 0
    ev200pending [] (by norm_num) rfl
  unfold poll_status
  exact ⟨rfl, by rw [h]; rfl, by rw [h]; rfl⟩

/-- C1 amended: pending is signalled by HTTP status 202 regardless of body,
and a 200 response terminates with its body regardless of body.  For every
sequence of N instantaneous 202 responses followed by one 200 response, with
enough time budget, the loop resolves after exactly N+1 status requests and
returns the 200 body unchanged. -/
theorem C1_status_code_polling (rt d i : ℚ) (rid : Json) (tmo : ℚ)
    (fin : PollEvent) (hf : fin.resp.status = 200) (hi : 0 ≤ i) :
    ∀ (pend : List PollEvent) (now : ℚ),
      (∀ e ∈ pend, e.resp.status = 202 ∧ e.elapse = 0) →
      now + (pend.length : ℚ) * i < d →
      (pollStatusGo rt d i rid tmo now (pend ++ [fin])).outcome
        = PollOutcome.resolved (respValue fin.resp) ∧
      (pollStatusGo rt d i rid tmo now (pend ++ [fin])).requests.length
        = pend.length + 1 := by
  intro pend
  induction pend with
  | nil =>
    intro now hp ht
    simp only [List.length_nil, Nat.cast_zero, zero_mul, add_zero] at ht
    rw [List.nil_append,
      pollStatusGo_200 rt d i rid tmo now fin [] (by linarith) hf]
    exact ⟨rfl, rfl⟩
  | cons e rest ih =>
    intro now hp ht
    obtain ⟨h202, hel⟩ := hp e (List.mem_cons_self e rest)
    simp only [List.length_cons, Nat.cast_add, Nat.cast_one] at ht
    have hrest : (0 : ℚ) ≤ ((rest.length : ℚ) + 1) * i := by positivity
    have hlt : 0 < d - now := by nlinarith
    rw [List.cons_append, pollStatusGo_202 rt d i rid tmo now e
      (rest ++ [fin]) hlt h202]
    have ih' := ih (now + e.elapse + i)
      (fun x hx => hp x (List.mem_cons_of_mem e hx))
      (by rw [hel]; nlinarith)
    refine ⟨ih'.1, ?_⟩
    simp only [List.length_cons, ih'.2]

/-- C1 witness: one pending 202 response followed by a 200 response resolves
after exactly two status requests with the terminal body. -/
theorem C1_witness :
    (pollStatusGo 10 60 3 ridEx 60 0 ([ev202] ++ [ev200done])).outcome
      = PollOutcome.resolved (respValue ev200done.resp) ∧
    (pollStatusGo 10 60 3 ridEx 60 0 ([ev202] ++ [ev200done])).requests.length
      = [ev202].length + 1 :=
  C1_status_code_polling 10 60 3 ridEx 60 ev200done rfl (by norm_num)
    [ev202] 0
    (by intro e he; rw [List.mem_singleton] at he; subst he; exact ⟨rfl, rfl⟩)
    (by norm_num)

/-- C10: during polling, a response with a status between 201 and 399 other
than 202 neither resolves the call nor raises: the loop records the request,
sleeps for the interval and continues with the remaining responses, so such a
run can only end through a later 200, a later error status, the time budget,
or the server script running out. -/
theorem C10_nonerror_status_continues (rt d i : ℚ) (rid : Json) (tmo now : ℚ)
    (e : PollEvent) (rest : List PollEvent) (hb : 0 < d - now)
    (h1 : 201 ≤ e.resp.status) (h2 : e.resp.status ≤ 399)
    (h3 : e.resp.status ≠ 202) :
    pollStatusGo rt d i rid tmo now (e :: rest)
      = { outcome := (pollStatusGo rt d i rid tmo (now + e.elapse + i) rest).outcome,
          requests := (now, min rt (max ((1 : ℚ)/10) (d - now)))
            :: (pollStatusGo rt d i rid tmo (now + e.elapse + i) rest).requests,
          waits := i :: (pollStatusGo rt d i rid tmo (now + e.elapse + i) rest).waits } :=
  pollStatusGo_other rt d i rid tmo now e rest hb (by omega) h3 (by omega)

/-- C10 witness: a 204 status response during polling leads to the
continuation branch. -/
theorem C10_witness :
    pollStatusGo 10 60 3 ridEx 60 0 (ev204 :: [ev200done])
      = { outcome := (pollStatusGo 10 60 3 ridEx 60 (0 + ev204.elapse + 3) [ev200done]).outcome,
          requests := (0, min 10 (max ((1 : ℚ)/10) (60 - 0)))
            :: (pollStatusGo 10 60 3 ridEx 60 (0 + ev204.elapse + 3) [ev200done]).requests,
          waits := 3 :: (pollStatusGo 10 60 3 ridEx 60 (0 + ev204.elapse + 3) [ev200done]).waits } :=
  C10_nonerror_status_continues 10 60 3 ridEx 60 0 ev204 [ev200done]
    (by norm_num) (by norm_num [ev204]) (by norm_num [ev204]) (by norm_num [ev204])

/-- C4: the polling deadline is the `startTime + timeout` computed once on
entry; a call whose budget is already exhausted raises `PollTimeoutError`
without issuing any status request; every status request is issued strictly
before the deadline; and a `PollTimeoutError` outcome always carries the
request id and the configured timeout. -/
theorem C4_deadline (c : Client) (rid : Json) (interval timeout startTime : ℚ)
    (events : List PollEvent) :
    (timeout ≤ 0 →
       poll_status c rid interval timeout startTime events
         = { outcome := PollOutcome.timedOut rid timeout,
             requests := [], waits := [] })
  ∧ (∀ p ∈ (poll_status c rid interval timeout startTime events).requests,
       p.1 < startTime + timeout)
  ∧ (∀ r t,
       (poll_status c rid interval timeout startTime events).outcome
         = PollOutcome.timedOut r t → r = rid ∧ t = timeout) := by
  unfold poll_status
  refine ⟨?_, ?_, ?_⟩
  · intro h
    exact pollStatusGo_timeout c.request_timeout (startTime + timeout) interval
      rid timeout startTime events (by linarith)
  · intro p hp
    exact (pollStatusGo_requests_spec c.request_timeout (startTime + timeout)
      interval rid timeout events startTime p hp).1
  · intro r t h
    exact pollStatusGo_timedOut_inv c.request_timeout (startTime + timeout)
      interval rid timeout events startTime r t h

/-- C4 witness: with a zero time budget the call raises `PollTimeoutError`
carrying the request id and the configured timeout, and issues no status
request even though a scripted response was available. -/
theorem C4_witness :
    poll_status cfgEx ridEx 3 0 0 [ev200done]
      = { outcome := PollOutcome.timedOut ridEx 0, requests := [], waits := [] } :=
  (C4_deadline cfgEx ridEx 3 0 0 [ev200done]).1 (le_refl 0)

/-- C5 counterexample: with a remaining budget of 1/20 time units at the
check, the request of that iteration is issued with timeout
`min(10, max(0.1, 1/20)) = 1/10`, which exceeds the remaining budget — the
floor of 0.1 in the source can exceed the remaining deadline budget. -/
theorem C5_counterexample :
    (poll_status cfgEx ridEx 3 (1/20) 0 [ev200done]).requests = [(0, 1/10)] ∧
    ((0 : ℚ) + 1/20) - 0 < 1/10 := by
  have h := pollStatusGo_200 cfgEx.request_timeout (0 + 1/20) 3 ridEx (1/20) 0
    ev200done [] (by norm_num) rfl
  constructor
  · unfold poll_status
    rw [h]
    have hmax : max ((1 : ℚ)/10) (0 + 1/20 - 0) = 1/10 :=
      max_eq_left (by norm_num)
    have hmin : min cfgEx.request_timeout ((1 : ℚ)/10) = 1/10 :=
      min_eq_right (by norm_num [cfgEx])
    rw [hmax, hmin]
  · norm_num

/-- C5 amended: the per-iteration request timeout is
`min(request_timeout, max(0.1, remaining))`; it never exceeds the client's
request timeout, and it never exceeds the remaining budget provided the
remaining budget is at least 0.1 — below that, the 0.1 floor wins. -/
theorem C5_request_timeout_bound (rt d i : ℚ) (rid : Json) (tmo now : ℚ)
    (events : List PollEvent) (p : ℚ × ℚ)
    (hp : p ∈ (pollStatusGo rt d i rid tmo now events).requests)
    (hrem : (1 : ℚ)/10 ≤ d - p.1) :
    p.2 ≤ d - p.1 ∧ p.2 ≤ rt := by
  obtain ⟨-, h2⟩ := pollStatusGo_requests_spec rt d i rid tmo events now p hp
  rw [h2]
  exact ⟨(min_le_right _ _).trans (le_of_eq (max_eq_right hrem)),
    min_le_left _ _⟩

/-- C5 witness: the first request of a run with a 60 time-unit budget is
issued with timeout 10, which is within both bounds. -/
theorem C5_witness :
    ((0 : ℚ), (10 : ℚ)).2 ≤ 60 - ((0 : ℚ), (10 : ℚ)).1 ∧
    ((0 : ℚ), (10 : ℚ)).2 ≤ 10 := by
  have h := pollStatusGo_200 (10 : ℚ) 60 3 ridEx 60 0 ev200done []
    (by norm_num) rfl
  have hmem : ((0 : ℚ), (10 : ℚ)) ∈ (pollStatusGo 10 60 3 ridEx 60 0 [ev200done]).requests := by
    rw [h]
    have hmax : max ((1 : ℚ)/10) (60 - 0) = 60 - 0 := max_eq_right (by norm_num)
    have hmin : min (10 : ℚ) (60 - 0 : ℚ) = 10 := min_eq_left (by norm_num)
    rw [hmax, hmin]
    exact List.mem_singleton.mpr rfl
  exact C5_request_timeout_bound 10 60 3 ridEx 60 0 [ev200done] (0, 10) hmem
    (by norm_num)

/-- C6 counterexample: a pending 202 response carrying the Retry-After header
value 7 is followed by a wait of 3 time units — the configured interval — not
of 7 as the claim requires; the header is never consulted. -/
theorem C6_counterexample :
    ev202ra.resp.retryAfter = some "7" ∧
    (poll_status cfgEx ridEx 3 60 0 [ev202ra, ev200done]).waits = [3] ∧
    (3 : ℚ) ≠ 7 := by
  have h1 := pollStatusGo_202 cfgEx.request_timeout (0 + 60) 3 ridEx 60 0
    ev202ra [ev200done] (by norm_num) rfl
  have h2 := pollStatusGo_200 cfgEx.request_timeout (0 + 60) 3 ridEx 60
    (0 + ev202ra.elapse + 3) ev200done [] (by norm_num [ev202ra]) rfl
  refine ⟨rfl, ?_, by norm_num⟩
  unfold poll_status
  rw [h1]
  simp only [h2]

/-- C6 amended: the waits between polling iterations are always exactly the
configured interval, and the entire polling behaviour is unchanged under any
rewriting of the Retry-After headers of the responses: the client ignores the
header entirely. -/
theorem C6_wait_ignores_retry_after (rt d i : ℚ) (rid : Json) (tmo now : ℚ)
    (events : List PollEvent) (v : Option String) :
    (∀ w ∈ (pollStatusGo rt d i rid tmo now events).waits, w = i) ∧
    pollStatusGo rt d i rid tmo now (events.map (setRetryAfter v))
      = pollStatusGo rt d i rid tmo now events := by
  constructor
  · exact pollStatusGo_waits_spec rt d i rid tmo events now
  · induction events generalizing now with
    | nil => rfl
    | cons e rest ih =>
      by_cases hd : d - now ≤ 0
      · rw [List.map_cons,
          pollStatusGo_timeout rt d i rid tmo now (setRetryAfter v e :: _) hd,
          pollStatusGo_timeout rt d i rid tmo now (e :: rest) hd]
      · have hlt : 0 < d - now := not_le.mp hd
        have hst : (setRetryAfter v e).resp.status = e.resp.status := rfl
        by_cases h200 : e.resp.status = 200
        · rw [List.map_cons,
            pollStatusGo_200 rt d i rid tmo now (setRetryAfter v e) _ hlt
              (hst.trans h200),
            pollStatusGo_200 rt d i rid tmo now e rest hlt h200]
          rfl
        · by_cases h202 : e.resp.status = 202
          · rw [List.map_cons,
              pollStatusGo_202 rt d i rid tmo now (setRetryAfter v e) _ hlt
                (hst.trans h202),
              pollStatusGo_202 rt d i rid tmo now e rest hlt h202]
            have hel : (setRetryAfter v e).elapse = e.elapse := rfl
            rw [hel, ih (now + e.elapse + i)]
          · by_cases h400 : 400 ≤ e.resp.status
            · rw [List.map_cons,
                pollStatusGo_400 rt d i rid tmo now (setRetryAfter v e) _ hlt
                  (hst.symm ▸ h400),
                pollStatusGo_400 rt d i rid tmo now e rest hlt h400]
              rfl
            · rw [List.map_cons,
                pollStatusGo_other rt d i rid tmo now (setRetryAfter v e) _ hlt
                  (hst.symm ▸ h200) (hst.symm ▸ h202) (hst.symm ▸ h400),
                pollStatusGo_other rt d i rid tmo now e rest hlt h200 h202 h400]
              have hel : (setRetryAfter v e).elapse = e.elapse := rfl
              rw [hel, ih (now + e.elapse + i)]

/-- C6 witness: in the run of the C6 counterexample the single recorded wait
indeed equals the configured interval, and stripping the Retry-After header
does not change the run. -/
theorem C6_witness :
    ((3 : ℚ) = 3) ∧
    pollStatusGo 10 60 3 ridEx 60 0
        ([ev202ra, ev200done].map (setRetryAfter none))
      = pollStatusGo 10 60 3 ridEx 60 0 [ev202ra, ev200done] := by
  have h := C6_wait_ignores_retry_after 10 60 3 ridEx 60 0 [ev202ra, ev200done] none
  exact ⟨rfl, h.2⟩

/-- C7: the credential is resolved in the order explicit argument, then
VOIDS_DATASTORE_API_KEY, then API_KEY, each consulted only if the previous is
absent or empty; if all three are absent or empty, construction yields
`AuthenticationError` (and no client — hence no session and no HTTP request —
ever exists). -/
theorem C7_credential_resolution (arg e1 e2 bu : Option String) (rt : ℚ) :
    (∀ s, arg = some s → s ≠ "" →
       initClient arg { voidsDatastoreApiKey := e1, apiKey := e2 } bu rt
         = InitResult.ok { api_key := s, base_url := normalizeBase bu,
                           request_timeout := rt })
  ∧ (strTruthy arg = false → ∀ s, e1 = some s → s ≠ "" →
       initClient arg { voidsDatastoreApiKey := e1, apiKey := e2 } bu rt
         = InitResult.ok { api_key := s, base_url := normalizeBase bu,
                           request_timeout := rt })
  ∧ (strTruthy arg = false → strTruthy e1 = false → ∀ s, e2 = some s → s ≠ "" →
       initClient arg { voidsDatastoreApiKey := e1, apiKey := e2 } bu rt
         = InitResult.ok { api_key := s, base_url := normalizeBase bu,
                           request_timeout := rt })
  ∧ (strTruthy arg = false → strTruthy e1 = false → strTruthy e2 = false →
       initClient arg { voidsDatastoreApiKey := e1, apiKey := e2 } bu rt
         = InitResult.authError) := by
  refine ⟨?_, ?_, ?_, ?_⟩
  · intro s hs hne
    subst hs
    have h1 : strTruthy (some s) = true := by simp [strTruthy, hne]
    unfold initClient resolveApiKey pyOrStr
    rw [h1]
    simp [hne]
  · intro ha s hs hne
    subst hs
    have h1 : strTruthy (some s) = true := by simp [strTruthy, hne]
    unfold initClient resolveApiKey pyOrStr
    rw [ha, h1]
    simp [hne]
  · intro ha hb s hs hne
    subst hs
    unfold initClient resolveApiKey pyOrStr
    rw [ha, hb]
    simp [hne]
  · intro ha hb hc
    unfold initClient resolveApiKey pyOrStr
    rw [ha, hb]
    cases e2 with
    | none => simp
    | some s =>
      have hs : s = "" := by simpa [strTruthy] using hc
      subst hs
      simp

/-- C7 witness: with no argument, an empty primary environment variable and a
non-empty secondary environment variable, the secondary value is used. -/
theorem C7_witness :
    initClient none { voidsDatastoreApiKey := some "", apiKey := some "z" }
        none 10
      = InitResult.ok { api_key := "z", base_url := normalizeBase none,
                        request_timeout := 10 } :=
  (C7_credential_resolution none (some "") (some "z") none 10).2.2.1
    rfl (by simp [strTruthy]) "z" rfl (by simp)

/-- C2: calling `update_key` with a null value sends a request with an empty
body, not a JSON null body: `json_payload` is set to `None` for a null value,
so the `json_payload is not None` test routes the request through
`post(data=None)`, which carries no body at all.  The claim (and the source
comment saying a JSON null is sent) is contradicted. -/
theorem C2_null_sends_empty_body (c : Client) (initial : HResp)
    (pI pT t0 : ℚ) (events : List PollEvent) :
    (update_key c Json.null initial pI pT t0 events).1 = ReqBody.emptyBody ∧
    updateRequestBody Json.null = ReqBody.emptyBody ∧
    ∀ j : Json, ReqBody.emptyBody ≠ ReqBody.jsonBody j :=
  ⟨rfl, rfl, fun _ h => ReqBody.noConfusion h⟩

/-- C3: an initial response whose status is in 201-399 (other than 202), for
example 204, makes `get_key`/`update_key` return Python `None` instead of
raising: `_raise_for_status` only raises for statuses of 400 and above, and
the functions fall through.  Statuses of 400 and above do raise
`DatastoreError` carrying the status code. -/
theorem C3_non_error_status_returns_none :
    resp204.status = 204 ∧
    (get_key cfgEx resp204 3 60 0 []).1 = CallResult.retNone ∧
    (update_key cfgEx (Json.num 1) resp204 3 60 0 []).2.1 = CallResult.retNone ∧
    isDatastoreError CallResult.retNone = false ∧
    isReturn CallResult.retNone = true ∧
    (get_key cfgEx resp404 3 60 0 []).1
      = CallResult.dsErr 404 (some (PyVal.text "not found")) :=
  ⟨rfl, rfl, rfl, rfl, rfl, rfl⟩

/-- C8 counterexample: a 202 initial response whose body is JSON but not an
object (here the array [1]) raises an uncaught `AttributeError` from
`data.get(...)`, which is not a `DatastoreError` — the claim promises a
`DatastoreError` whenever the field is absent.  The call still never returns
a value. -/
theorem C8_counterexample :
    resp202arr.status = 202 ∧
    resp202arr.json = some (Json.arr [Json.num 1]) ∧
    (get_key cfgEx resp202arr 3 60 0 []).1
      = CallResult.pyError "AttributeError: object has no attribute get" ∧
    isDatastoreError (get_key cfgEx resp202arr 3 60 0 []).1 = false ∧
    isReturn (get_key cfgEx resp202arr 3 60 0 []).1 = false :=
  ⟨rfl, rfl, rfl, rfl, rfl⟩

/-- C8 amended: on a 202 initial response, both operations accept both
requestId spellings (`get_key` additionally accepts "requestid"); a non-JSON
body raises `DatastoreError`, a JSON object without a truthy request id field
raises `DatastoreError`, a truthy extracted id enters polling — but a JSON
body that is not an object raises an uncaught `AttributeError` instead of a
`DatastoreError`; in every failure case no value is returned. -/
theorem C8_request_id_extraction (c : Client) (initial : HResp)
    (pI pT t0 : ℚ) (events : List PollEvent)
    (h202 : initial.status = 202) :
    (initial.json = none →
       (get_key c initial pI pT t0 events).1
         = CallResult.dsErrMsg "202 response did not contain JSON with a requestId." ∧
       ∀ v : Json, (update_key c v initial pI pT t0 events).2.1
         = CallResult.dsErrMsg "202 response did not contain JSON with a requestId.")
  ∧ (∀ fields, initial.json = some (Json.obj fields) →
       (optTruthy (ridChainGet fields) = false →
          (get_key c initial pI pT t0 events).1
            = CallResult.dsErrMsg "202 response missing requestId field.")
       ∧ (optTruthy (ridChainUpdate fields) = false →
          ∀ v : Json, (update_key c v initial pI pT t0 events).2.1
            = CallResult.dsErrMsg "202 response missing requestId field.")
       ∧ (∀ j, ridChainGet fields = some j → jsonTruthy j = true →
          get_key c initial pI pT t0 events
            = (pollOutcomeToResult (poll_status c j pI pT t0 events).outcome,
               (poll_status c j pI pT t0 events).requests,
               (poll_status c j pI pT t0 events).waits))
       ∧ (∀ j, ridChainUpdate fields = some j → jsonTruthy j = true →
          ∀ v : Json, (update_key c v initial pI pT t0 events).2
            = (pollOutcomeToResult (poll_status c j pI pT t0 events).outcome,
               (poll_status c j pI pT t0 events).requests,
               (poll_status c j pI pT t0 events).waits)))
  ∧ (∀ j, initial.json = some j → (∀ fields, j ≠ Json.obj fields) →
       (get_key c initial pI pT t0 events).1
         = CallResult.pyError "AttributeError: object has no attribute get" ∧
       ∀ v : Json, (update_key c v initial pI pT t0 events).2.1
         = CallResult.pyError "AttributeError: object has no attribute get")
  ∧ (∀ fields j, optTruthy (objGet fields "requestId") = false →
       objGet fields "request_id" = some j → jsonTruthy j = true →
       ridChainGet fields = some j ∧ ridChainUpdate fields = some j) := by
  have hne : initial.status ≠ 200 := by rw [h202]; decide
  refine ⟨?_, ?_, ?_, ?_⟩
  · intro hjson
    constructor
    · simp [get_key, hne, h202, acceptedBranch, hjson]
    · intro v
      simp [update_key, hne, h202, acceptedBranch, hjson]
  · intro fields hjson
    refine ⟨?_, ?_, ?_, ?_⟩
    · intro hfalse
      cases hch : ridChainGet fields with
      | none => simp [get_key, hne, h202, acceptedBranch, hjson, hch]
      | some j =>
        rw [hch] at hfalse
        simp only [optTruthy] at hfalse
        simp [get_key, hne, h202, acceptedBranch, hjson, hch, hfalse]
    · intro hfalse v
      cases hch : ridChainUpdate fields with
      | none => simp [update_key, hne, h202, acceptedBranch, hjson, hch]
      | some j =>
        rw [hch] at hfalse
        simp only [optTruthy] at hfalse
        simp [update_key, hne, h202, acceptedBranch, hjson, hch, hfalse]
    · intro j hch htr
      simp [get_key, hne, h202, acceptedBranch, hjson, hch, htr]
    · intro j hch htr v
      simp [update_key, hne, h202, acceptedBranch, hjson, hch, htr]
  · intro j hjson hobj
    have hmatch : ∀ chain,
        acceptedBranch c chain initial pI pT t0 events
          = (CallResult.pyError "AttributeError: object has no attribute get",
             [], []) := by
      intro chain
      cases j with
      | obj fields => exact absurd rfl (hobj fields)
      | null => simp [acceptedBranch, hjson]
      | bool b => simp [acceptedBranch, hjson]
      | num n => simp [acceptedBranch, hjson]
      | str s => simp [acceptedBranch, hjson]
      | arr l => simp [acceptedBranch, hjson]
    constructor
    · simp [get_key, hne, h202, hmatch]
    · intro v
      simp [update_key, hne, h202, hmatch]
  · intro fields j h1 h2 h3
    have h4 : optTruthy (objGet fields "request_id") = true := by
      rw [h2]; simpa [optTruthy] using h3
    constructor
    · simp [ridChainGet, pyOrJ, h1, h4, h2]
      intro hcontra
      simp [optTruthy, h3] at hcontra
    · simp [ridChainUpdate, pyOrJ, h1, h4, h2]

/-- C8 witness: a 202 response whose body only carries the request_id
spelling with a truthy value enters polling with that id. -/
theorem C8_witness :
    get_key cfgEx resp202rid2 3 60 0 [ev200done]
      = (pollOutcomeToResult
           (poll_status cfgEx (Json.str "abc") 3 60 0 [ev200done]).outcome,
         (poll_status cfgEx (Json.str "abc") 3 60 0 [ev200done]).requests,
         (poll_status cfgEx (Json.str "abc") 3 60 0 [ev200done]).waits) := by
  have h := (C8_request_id_extraction cfgEx resp202rid2 3 60 0 [ev200done]
    rfl).2.1 [("request_id", Json.str "abc")] rfl
  exact h.2.2.1 (Json.str "abc") rfl rfl

/-- Helper: the first element surviving `dropWhile`, if any, fails the
predicate. -/
theorem head?_dropWhile_not (p : Char → Bool) (l : List Char) :
    ∀ a, (l.dropWhile p).head? = some a → p a = false := by
  induction l with
  | nil => intro a h; simp at h
  | cons x xs ih =>
    intro a h
    rw [List.dropWhile_cons] at h
    by_cases hx : p x
    · rw [if_pos hx] at h
      exact ih a h
    · rw [if_neg hx] at h
      simp only [List.head?_cons, Option.some.injEq] at h
      subst h
      simpa using hx

/-- Helper: a list is its `rstrip("/")` followed by the stripped run of
separators. -/
theorem rstrip_decomposition (l : List Char) :
    l = pyRstrip l
        ++ List.replicate (l.reverse.takeWhile (fun ch => ch = '/')).length '/' := by
  have h1 := List.takeWhile_append_dropWhile (fun ch => ch = '/') l.reverse
  have h2 : l.reverse.takeWhile (fun ch => ch = '/')
      = List.replicate (l.reverse.takeWhile (fun ch => ch = '/')).length '/' := by
    apply List.eq_replicate_of_mem
    intro b hb
    have hpb := List.mem_takeWhile_imp hb
    exact of_decide_eq_true hpb
  calc l = l.reverse.reverse := (List.reverse_reverse l).symm
    _ = (l.reverse.takeWhile (fun ch => ch = '/')
          ++ l.reverse.dropWhile (fun ch => ch = '/')).reverse := by rw [h1]
    _ = (l.reverse.dropWhile (fun ch => ch = '/')).reverse
          ++ (l.reverse.takeWhile (fun ch => ch = '/')).reverse :=
        List.reverse_append _ _
    _ = pyRstrip l
          ++ (List.replicate (l.reverse.takeWhile (fun ch => ch = '/')).length '/').reverse := by
        rw [← h2]; rfl
    _ = pyRstrip l
          ++ List.replicate (l.reverse.takeWhile (fun ch => ch = '/')).length '/' := by
        rw [List.reverse_replicate]

/-- Helper: a list is the stripped run of leading separators followed by its
`lstrip("/")`. -/
theorem lstrip_decomposition (l : List Char) :
    l = List.replicate (l.takeWhile (fun ch => ch = '/')).length '/'
        ++ pyLstrip l := by
  have h2 : l.takeWhile (fun ch => ch = '/')
      = List.replicate (l.takeWhile (fun ch => ch = '/')).length '/' := by
    apply List.eq_replicate_of_mem
    intro b hb
    have hpb := List.mem_takeWhile_imp hb
    exact of_decide_eq_true hpb
  calc l = l.takeWhile (fun ch => ch = '/') ++ l.dropWhile (fun ch => ch = '/') :=
        (List.takeWhile_append_dropWhile _ l).symm
    _ = List.replicate (l.takeWhile (fun ch => ch = '/')).length '/'
          ++ pyLstrip l := by rw [← h2]; rfl

/-- Helper: `rstrip("/")` leaves no trailing separator. -/
theorem rstrip_getLast_ne (l : List Char) : (pyRstrip l).getLast? ≠ some '/' := by
  intro hcontra
  have he : (pyRstrip l).getLast?
      = (l.reverse.dropWhile (fun ch => ch = '/')).head? := by
    rw [show pyRstrip l = (l.reverse.dropWhile (fun ch => ch = '/')).reverse from rfl,
      List.getLast?_reverse]
  rw [he] at hcontra
  have := head?_dropWhile_not (fun ch => ch = '/') l.reverse '/' hcontra
  simp at this

/-- Helper: `lstrip("/")` leaves no leading separator. -/
theorem lstrip_head_ne (l : List Char) : (pyLstrip l).head? ≠ some '/' := by
  intro hcontra
  have := head?_dropWhile_not (fun ch => ch = '/') l '/' hcontra
  simp at this

/-- C9: the URL built by the client is the base address with all trailing
separators removed, followed by exactly one separator, followed by the path
with all leading separators removed. -/
theorem C9_build_url (c : Client) (path : String) :
    ∃ k m : ℕ,
      c.base_url.toList = pyRstrip c.base_url.toList ++ List.replicate k '/' ∧
      path.toList = List.replicate m '/' ++ pyLstrip path.toList ∧
      (build_url c path).toList
        = pyRstrip c.base_url.toList ++ '/' :: pyLstrip path.toList ∧
      (pyRstrip c.base_url.toList).getLast? ≠ some '/' ∧
      (pyLstrip path.toList).head? ≠ some '/' :=
  ⟨(c.base_url.toList.reverse.takeWhile (fun ch => ch = '/')).length,
   (path.toList.takeWhile (fun ch => ch = '/')).length,
   rstrip_decomposition c.base_url.toList,
   lstrip_decomposition path.toList,
   rfl,
   rstrip_getLast_ne c.base_url.toList,
   lstrip_head_ne path.toList⟩
